import Mathlib

/-!
Verification of the energy-tracker API client (Python) against its
natural-language specification.  The definitions below are a shallow
embedding of the source files under `energy_tracker_api/`: JSON wire
values, the gateway `_make_request` classification chain, the DTO
encoders, and the resource query-parameter builders.  Machine details
of Python that matter to the claims (truthiness, `str.isdigit`,
`datetime.isoformat(timespec="milliseconds")`, `Decimal.__str__`) are
embedded explicitly.
-/

namespace EnergyTracker

/-- JSON wire values, as produced by `response.json()` or handed to the
transport as a request body.  Numbers are embedded as integers: no claim
touches a non-integral JSON number. -/
inductive Json where
  | obj (fields : List (String × Json))
  | arr (items : List Json)
  | str (s : String)
  | num (n : Int)
  | bool (b : Bool)
  | null

/-- Python-level raised errors that are not part of the taxonomy.
`attributeError` models the `AttributeError` raised by `data.get(...)`
when `data` is not a dict; `valueError` models the `ValueError` raised
by `int(...)` on a digit-class string containing a non-decimal digit.
Neither is caught by any except-clause of `_make_request`. -/
inductive PyError where
  | attributeError
  | valueError

/-- Digit character for a single decimal digit. -/
def natDigitChar (d : Nat) : Char := Char.ofNat (48 + d)

/-- The string made of the given decimal digits. -/
def digitsString (ds : List Nat) : String := String.mk (ds.map natDigitChar)

mutual

/-- Python `str(x)` on a decoded JSON value (`str` of a `str` is the
string itself; containers render via `repr` of their elements). -/
def pyStr : Json → String
  | .null => "None"
  | .bool b => if b then "True" else "False"
  | .num n => toString n
  | .str s => s
  | .arr xs => "[" ++ pyReprList xs ++ "]"
  | .obj fs => "\x7b" ++ pyReprFields fs ++ "\x7d"

/-- Python `repr(x)` on a decoded JSON value (strings are quoted). -/
def pyRepr : Json → String
  | .null => "None"
  | .bool b => if b then "True" else "False"
  | .num n => toString n
  | .str s => "\x27" ++ s ++ "\x27"
  | .arr xs => "[" ++ pyReprList xs ++ "]"
  | .obj fs => "\x7b" ++ pyReprFields fs ++ "\x7d"

/-- Comma-joined `repr` of list elements. -/
def pyReprList : List Json → String
  | [] => ""
  | [x] => pyRepr x
  | x :: y :: xs => pyRepr x ++ ", " ++ pyReprList (y :: xs)

/-- Comma-joined `repr` of dict items. -/
def pyReprFields : List (String × Json) → String
  | [] => ""
  | [(k, v)] => "\x27" ++ k ++ "\x27: " ++ pyRepr v
  | (k, v) :: f :: fs => "\x27" ++ k ++ "\x27: " ++ pyRepr v ++ ", " ++ pyReprFields (f :: fs)

end

/-- `EnergyTrackerClient._extract_api_message` (client.py 66-74), together
with the Python semantics of calling it on the value `response.json()`
produced: on a dict it inspects the `message` field (`isinstance list`
first, then `isinstance str`, else `[]`); on any non-dict value the call
`data.get("message")` raises `AttributeError`. -/
def extract_api_message (data : Json) : Except PyError (List String) :=
  match data with
  | .obj fields =>
      match fields.lookup "message" with
      | some (.arr ms) => .ok (ms.map pyStr)
      | some (.str s) => .ok [s]
      | _ => .ok []
  | _ => .error .attributeError

/-- Outcome of `await response.json()` in `_make_request` (client.py 84-87):
either a decoded JSON value, or a parse failure
(`aiohttp.ContentTypeError` / `ValueError`). -/
inductive BodyParse where
  | parsed (j : Json)
  | unparsable

/-- client.py 84-87: a body that fails to parse is replaced by `{}`. -/
def parse_body : BodyParse → Json
  | .parsed j => j
  | .unparsable => .obj []

/-- An HTTP response as `_make_request` observes it: the status code, the
body-parse outcome, and the `Retry-After` header (absent or its string
value). -/
structure Response where
  status : Nat
  body : BodyParse
  retryAfter : Option String

/-- The outcome of one transport round trip inside
`session.request(...)`: a received response, an `aiohttp.ClientError`, or
an `asyncio.TimeoutError` (the except-clauses of client.py 130-133). -/
inductive TransportOutcome where
  | response (r : Response)
  | clientError (emsg : String)
  | timeoutError

/-- The error taxonomy of exceptions.py.  Every kind carries the display
message and the `api_message` list (the base-class default is `[]`);
`rateLimit` additionally carries `retry_after`.  `generic` is the base
`EnergyTrackerAPIError` raised directly. -/
inductive ApiError where
  | validation (message : String) (api_message : List String)
  | authentication (message : String) (api_message : List String)
  | forbidden (message : String) (api_message : List String)
  | resourceNotFound (message : String) (api_message : List String)
  | conflict (message : String) (api_message : List String)
  | rateLimit (message : String) (api_message : List String) (retry_after : Option Nat)
  | network (message : String) (api_message : List String)
  | timeout (message : String) (api_message : List String)
  | generic (message : String) (api_message : List String)

/-- The `api_message` attribute of a raised taxonomy error. -/
def ApiError.apiMessageOf : ApiError → List String
  | .validation _ m => m
  | .authentication _ m => m
  | .forbidden _ m => m
  | .resourceNotFound _ m => m
  | .conflict _ m => m
  | .rateLimit _ m _ => m
  | .network _ m => m
  | .timeout _ m => m
  | .generic _ m => m

/-- The display message of a raised taxonomy error. -/
def ApiError.messageOf : ApiError → String
  | .validation m _ => m
  | .authentication m _ => m
  | .forbidden m _ => m
  | .resourceNotFound m _ => m
  | .conflict m _ => m
  | .rateLimit m _ _ => m
  | .network m _ => m
  | .timeout m _ => m
  | .generic m _ => m

/-- Result of one `_make_request` call: the returned
`aiohttp.ClientResponse` object on success, a raised taxonomy error, or
a raised plain Python error (uncaught by the except-clauses). -/
inductive RequestResult where
  | success (r : Response)
  | apiError (e : ApiError)
  | pyError (e : PyError)

/-- Characters in Python's `str.isdigit` class that are not decimal
digits (not Unicode Nd), so `int()` rejects them: the Latin superscript
digits U+00B2, U+00B3, U+00B9 and the superscript/subscript digit
blocks U+2070-2079 and U+2080-2089.  Decimal digits are embedded as
ASCII; further non-decimal digit codepoints in higher planes behave the
same way and are out of scope. -/
def isDigitNotDecimalChar (c : Char) : Bool :=
  c.toNat == 178 || c.toNat == 179 || c.toNat == 185 ||
    (8304 ≤ c.toNat && c.toNat ≤ 8313) || (8320 ≤ c.toNat && c.toNat ≤ 8329)

/-- Python `str.isdigit`: true iff the string is nonempty and every
character is in the digit class — a decimal digit or a
digit-but-not-decimal character such as a superscript. -/
def pyIsDigit (s : String) : Bool :=
  !s.data.isEmpty && s.data.all (fun c => c.isDigit || isDigitNotDecimalChar c)

/-- The numeric value of a decimal digit string. -/
def pyStrToNat (s : String) : Nat := s.data.foldl (fun n c => 10 * n + (c.toNat - 48)) 0

/-- Python `int(s)` on an isdigit-true string: succeeds when every
character is a decimal digit, raises `ValueError` when the string
contains a digit-class character that is not a decimal digit. -/
def pyIntOfDigitString (s : String) : Except PyError Nat :=
  if s.data.all Char.isDigit then .ok (pyStrToNat s) else .error .valueError

/-- client.py 109-112: `int(retry_after) if retry_after and
retry_after.isdigit() else None`.  The `int()` call itself can raise an
uncaught `ValueError`. -/
def retry_seconds_of (h : Option String) : Except PyError (Option Nat) :=
  match h with
  | none => .ok none
  | some s =>
      if !s.data.isEmpty && pyIsDigit s then
        match pyIntOfDigitString s with
        | .ok n => .ok (some n)
        | .error e => .error e
      else .ok none

/-- client.py 113-115: the 429 message built from the parsed
retry-seconds value; the suffix is appended under the truthiness test
`if retry_seconds:`, i.e. only when the value is present and nonzero. -/
def rate_limit_message (rs : Option Nat) : String :=
  match rs with
  | some n =>
      if n ≠ 0 then
        "Too Many Requests: Rate limit exceeded - Retry after " ++ toString n ++ " seconds"
      else "Too Many Requests: Rate limit exceeded"
  | none => "Too Many Requests: Rate limit exceeded"

/-- client.py 91-94: the 400 message is "Bad Request", with the joined
api messages in parentheses appended when the list is nonempty. -/
def bad_request_message (msgs : List String) : String :=
  if msgs.isEmpty then "Bad Request"
  else "Bad Request (" ++ String.intercalate "; " msgs ++ ")"

/-- client.py 91-128: the status-classification chain of `_make_request`,
applied to a received response once the api messages are extracted.  The
final `return response` hands back the response object itself. -/
def classify_status (r : Response) (msgs : List String) : RequestResult :=
  if r.status = 400 then
    .apiError (.validation (bad_request_message msgs) msgs)
  else if r.status = 401 then
    .apiError (.authentication "Unauthorized: Check your access token" msgs)
  else if r.status = 403 then
    .apiError (.forbidden "Forbidden: Insufficient permissions" msgs)
  else if r.status = 404 then
    .apiError (.resourceNotFound "Not Found" msgs)
  else if r.status = 409 then
    .apiError (.conflict "Conflict" msgs)
  else if r.status = 429 then
    match retry_seconds_of r.retryAfter with
    | .error e => .pyError e
    | .ok rs => .apiError (.rateLimit (rate_limit_message rs) msgs rs)
  else if 500 ≤ r.status then
    .apiError (.generic ("Server error: " ++ toString r.status) msgs)
  else if 400 ≤ r.status then
    .apiError (.generic ("HTTP error: " ++ toString r.status) msgs)
  else
    .success r

/-- `EnergyTrackerClient._make_request` (client.py 76-133) for a client
whose configured timeout total is `t` seconds.  Transport failures map
per the except-clauses (ClientError before asyncio.TimeoutError); a
received response goes through body parsing, api-message extraction
(whose AttributeError on a non-dict body is caught by no clause), and
the classification chain. -/
def make_request (t : Nat) (o : TransportOutcome) : RequestResult :=
  match o with
  | .clientError m => .apiError (.network ("Request failed: " ++ m) [])
  | .timeoutError => .apiError (.timeout ("Request timeout after " ++ toString t ++ " seconds") [])
  | .response r =>
      match extract_api_message (parse_body r.body) with
      | .error e => .pyError e
      | .ok msgs => classify_status r msgs

/-- Two decimal digits, zero-padded (faithful to Python formatting for
the values a `datetime` can hold). -/
def pad2 (n : Nat) : String := String.mk [natDigitChar (n / 10 % 10), natDigitChar (n % 10)]

/-- Three decimal digits, zero-padded. -/
def pad3 (n : Nat) : String :=
  String.mk [natDigitChar (n / 100 % 10), natDigitChar (n / 10 % 10), natDigitChar (n % 10)]

/-- Four decimal digits, zero-padded. -/
def pad4 (n : Nat) : String :=
  String.mk [natDigitChar (n / 1000 % 10), natDigitChar (n / 100 % 10),
    natDigitChar (n / 10 % 10), natDigitChar (n % 10)]

/-- A Python `datetime.datetime`: calendar fields plus the UTC offset of
its `tzinfo` in minutes (`none` for a naive datetime). -/
structure PyDatetime where
  year : Nat
  month : Nat
  day : Nat
  hour : Nat
  minute : Nat
  second : Nat
  microsecond : Nat
  tzOffsetMinutes : Option Int

/-- The date-and-seconds part of `datetime.isoformat`. -/
def isoSecondsPart (dt : PyDatetime) : String :=
  pad4 dt.year ++ "-" ++ pad2 dt.month ++ "-" ++ pad2 dt.day ++ "T" ++
    pad2 dt.hour ++ ":" ++ pad2 dt.minute ++ ":" ++ pad2 dt.second

/-- The zone designator `isoformat` appends: nothing for a naive
datetime, otherwise the signed offset as `+HH:MM` or `-HH:MM`. -/
def offsetDesignator : Option Int → String
  | none => ""
  | some o => (if 0 ≤ o then "+" else "-") ++ pad2 (o.natAbs / 60) ++ ":" ++ pad2 (o.natAbs % 60)

/-- Python `dt.isoformat(timespec="milliseconds")`: the seconds part, a
dot, the microseconds truncated to three millisecond digits, then the
zone designator of the datetime itself.  No timezone conversion is
performed by `isoformat`. -/
def pyIsoformatMs (dt : PyDatetime) : String :=
  isoSecondsPart dt ++ "." ++ pad3 (dt.microsecond / 1000) ++
    offsetDesignator dt.tzOffsetMinutes

/-- Whether string `s` ends with string `t` (character-list based). -/
def endsWithStr (s t : String) : Bool := s.data.reverse.take t.data.length == t.data.reverse

/-- A Python `decimal.Decimal`: sign, coefficient digits (most
significant first), and exponent.  Special values (NaN, infinity) are
out of scope. -/
structure PyDecimal where
  negative : Bool
  digits : List Nat
  exp : Int

/-- Python `str(Decimal)`, the to-scientific-string algorithm of
`_pydecimal.Decimal.__str__` for finite values: place the decimal point
at `leftdigits` when `exp <= 0 and leftdigits > -6`, else use exponent
notation with the point after the first digit. -/
def pyDecimalStr (d : PyDecimal) : String :=
  let n : Int := d.digits.length
  let leftdigits : Int := d.exp + n
  let dotplace : Int := if d.exp ≤ 0 ∧ -6 < leftdigits then leftdigits else 1
  let intpart : String :=
    if dotplace ≤ 0 then "0"
    else if n ≤ dotplace then
      digitsString d.digits ++ String.mk (List.replicate (dotplace - n).toNat (natDigitChar 0))
    else digitsString (d.digits.take dotplace.toNat)
  let fracpart : String :=
    if dotplace ≤ 0 then
      "." ++ String.mk (List.replicate (-dotplace).toNat (natDigitChar 0)) ++
        digitsString d.digits
    else if n ≤ dotplace then ""
    else "." ++ digitsString (d.digits.drop dotplace.toNat)
  let expStr : String :=
    if leftdigits = dotplace then ""
    else "E" ++ (if 0 ≤ leftdigits - dotplace then "+" else "") ++ toString (leftdigits - dotplace)
  (if d.negative then "-" else "") ++ intpart ++ fracpart ++ expStr

/-- models/meter_readings.py 76-87: the DTO for creating a meter
reading. -/
structure CreateMeterReadingDto where
  value : PyDecimal
  timestamp : Option PyDatetime
  note : Option String

/-- `CreateMeterReadingDto._to_dict` (models/meter_readings.py 89-100):
`value` always, as `str(self.value)`; `timestamp` and `note` only when
present.  Dicts are embedded as association lists in insertion order. -/
def CreateMeterReadingDto.to_dict (d : CreateMeterReadingDto) : List (String × Json) :=
  [("value", .str (pyDecimalStr d.value))] ++
    (match d.timestamp with
     | some ts => [("timestamp", .str (pyIsoformatMs ts))]
     | none => []) ++
    (match d.note with
     | some s => [("note", .str s)]
     | none => [])

/-- models/common.py 7-20: the timestamp-only DTO. -/
structure TimestampDto where
  timestamp : PyDatetime

/-- `TimestampDto._to_dict` (models/common.py 19-20). -/
def TimestampDto.to_dict (d : TimestampDto) : List (String × Json) :=
  [("timestamp", .str (pyIsoformatMs d.timestamp))]

/-- models/environments.py 74-84: the DTO for creating an environment
entry.  Its `value` is a Python float; no claim depends on the float
payload, so the embedded number is integral. -/
structure CreateEnvironmentEntryDto where
  value : Int
  timestamp : Option PyDatetime

/-- `CreateEnvironmentEntryDto._to_dict` (models/environments.py 86-92). -/
def CreateEnvironmentEntryDto.to_dict (d : CreateEnvironmentEntryDto) : List (String × Json) :=
  [("value", .num d.value)] ++
    (match d.timestamp with
     | some ts => [("timestamp", .str (pyIsoformatMs ts))]
     | none => [])

/-- models/meter_readings.py 9-13: sort direction. -/
inductive SortDirection where
  | asc
  | desc
deriving DecidableEq

/-- The wire value of a `SortDirection` member. -/
def SortDirection.val : SortDirection → String
  | .asc => "asc"
  | .desc => "desc"

/-- models/meter_readings.py 16-21: CSV delimiter options. -/
inductive CsvDelimiter where
  | comma
  | semicolon
  | tab

/-- The wire value of a `CsvDelimiter` member. -/
def CsvDelimiter.val : CsvDelimiter → String
  | .comma => "comma"
  | .semicolon => "semicolon"
  | .tab => "tab"

/-- models/meter_readings.py 24-30: date format options. -/
inductive DateFormat where
  | iso
  | date_time
  | unix
  | unix_ms

/-- The wire value of a `DateFormat` member. -/
def DateFormat.val : DateFormat → String
  | .iso => "iso"
  | .date_time => "date_time"
  | .unix => "unix"
  | .unix_ms => "unix_ms"

/-- models/meter_readings.py 33-40: exportable columns. -/
inductive ExportColumn where
  | date
  | value
  | note
  | meter_id
  | meter_number

/-- The wire value of an `ExportColumn` member (the fixed
lowercase/snake-case tokens). -/
def ExportColumn.val : ExportColumn → String
  | .date => "date"
  | .value => "value"
  | .note => "note"
  | .meter_id => "meter_id"
  | .meter_number => "meter_number"

/-- models/meter_readings.py 104-117: the export configuration DTO with
its defaults. -/
structure ExportMeterReadingsDto where
  columns : List ExportColumn
  include_header : Bool := true
  delimiter : CsvDelimiter := .comma
  date_format : DateFormat := .iso

/-- `ExportMeterReadingsDto._to_dict` (models/meter_readings.py
119-125): the StrEnum members serialize to the wire as their value
strings. -/
def ExportMeterReadingsDto.to_dict (d : ExportMeterReadingsDto) : List (String × Json) :=
  [("columns", .arr (d.columns.map fun c => .str c.val)),
   ("includeHeader", .bool d.include_header),
   ("delimiter", .str d.delimiter.val),
   ("dateFormat", .str d.date_format.val)]

/-- Python `str(b).lower()` for a bool. -/
def pyBoolLower (b : Bool) : String := if b then "true" else "false"

/-- `MeterReadingResource.list` query-parameter construction
(resources/meter_readings.py 47-55): each parameter only when its
argument is present; `sort` only when it differs from the descending
default. -/
def meter_reading_list_params (meter_id : Option String)
    (from_timestamp to_timestamp : Option PyDatetime) (sort : SortDirection) :
    List (String × String) :=
  (match meter_id with
   | some m => [("meterId", m)]
   | none => []) ++
  (match from_timestamp with
   | some f => [("from", pyIsoformatMs f)]
   | none => []) ++
  (match to_timestamp with
   | some v => [("to", pyIsoformatMs v)]
   | none => []) ++
  (if sort ≠ .desc then [("sort", sort.val)] else [])

/-- `MeterReadingResource.create` query-parameter construction
(resources/meter_readings.py 89-91): `allowRounding` as
`str(allow_rounding).lower()` only when supplied. -/
def meter_reading_create_params (allow_rounding : Option Bool) : List (String × String) :=
  match allow_rounding with
  | some b => [("allowRounding", pyBoolLower b)]
  | none => []

/-- `DeviceResource.list_standard` query-parameter construction
(resources/devices.py 38-46); `list_virtual` builds the same
parameters. -/
def device_list_params (name folder_path : Option String)
    (updated_after updated_before : Option PyDatetime) : List (String × String) :=
  (match name with
   | some s => [("name", s)]
   | none => []) ++
  (match folder_path with
   | some s => [("folderPath", s)]
   | none => []) ++
  (match updated_after with
   | some dt => [("updatedAfter", pyIsoformatMs dt)]
   | none => []) ++
  (match updated_before with
   | some dt => [("updatedBefore", pyIsoformatMs dt)]
   | none => [])

/-- The Python value `_make_request` hands back to its caller on
success, as the resource helpers in resources/base.py see it: the
`aiohttp.ClientResponse` object itself (client.py 128), as opposed to a
decoded JSON value or a bytes payload. -/
inductive PyValue where
  | clientResponse (r : Response)
  | jsonData (j : Json)
  | bytesData (bs : List Nat)

/-- Python `type(x).__name__` for the values above. -/
def pyTypeName : PyValue → String
  | .clientResponse _ => "ClientResponse"
  | .bytesData _ => "bytes"
  | .jsonData .null => "NoneType"
  | .jsonData (.bool _) => "bool"
  | .jsonData (.num _) => "int"
  | .jsonData (.str _) => "str"
  | .jsonData (.arr _) => "list"
  | .jsonData (.obj _) => "dict"

/-- `BaseResource._request_model_list` after the gateway call
(resources/base.py 90-93): `isinstance(data, list)` gates
deserialization; any other value raises the generic error naming the
received type.  Items are kept as wire values: the claim under study
fails before per-item decoding. -/
def request_model_list_check (data : PyValue) : Except ApiError (List Json) :=
  match data with
  | .jsonData (.arr items) => .ok items
  | _ => .error (.generic ("Expected list response, got " ++ pyTypeName data) [])

/-- Result of a full resource list call: the deserialized payload, a
raised taxonomy error, or a raised plain Python error. -/
inductive FlowResult where
  | ok (items : List Json)
  | raised (e : ApiError)
  | pythonError (e : PyError)

/-- The composed flow `MeterReadingResource.list` →
`BaseResource._request_model_list` → `EnergyTrackerClient._make_request`
(resources/meter_readings.py 57-62, resources/base.py 90, client.py
128): the helper binds exactly what `_make_request` returns, which on
success is the response object. -/
def request_model_list_flow (t : Nat) (o : TransportOutcome) : FlowResult :=
  match make_request t o with
  | .success r =>
      match request_model_list_check (.clientResponse r) with
      | .ok items => .ok items
      | .error e => .raised e
  | .apiError e => .raised e
  | .pyError e => .pythonError e

/-- The transport-session slot of one client instance: never created,
currently open, or closed. -/
inductive SessionState where
  | noSession
  | openSession
  | closedSession
deriving DecidableEq

/-- `EnergyTrackerClient.close` (client.py 135-138): closes the session
only if one exists and is not already closed. -/
def close_client : SessionState → SessionState
  | .openSession => .closedSession
  | s => s

/-- `EnergyTrackerClient._get_session` (client.py 56-64): when the
session is absent or closed, a fresh `aiohttp.ClientSession` is created
and stored; the flag records whether a new session was created by this
call. -/
def get_session : SessionState → SessionState × Bool
  | .noSession => (.openSession, true)
  | .closedSession => (.openSession, true)
  | .openSession => (.openSession, false)

/-- On a received response whose api-message extraction succeeds,
`_make_request` is exactly the status-classification chain. -/
theorem make_request_response_eq (t : Nat) (r : Response) (msgs : List String)
    (hex : extract_api_message (parse_body r.body) = Except.ok msgs) :
    make_request t (.response r) = classify_status r msgs := by
  simp [make_request, hex]

/-- Extraction raises AttributeError on every non-object JSON value. -/
theorem extract_api_message_non_obj (j : Json) (hno : ∀ fs, j ≠ .obj fs) :
    extract_api_message j = .error .attributeError := by
  cases j with
  | obj fs => exact absurd rfl (hno fs)
  | arr xs => rfl
  | str s => rfl
  | num n => rfl
  | bool b => rfl
  | null => rfl

/-- C1 (amended): for every received response whose body fails to parse
as JSON or parses to a JSON object, the gateway maps the status to
exactly one outcome: 200-399 succeeds returning the response; 400
raises Validation with the "Bad Request" message rule; 401, 403, 404,
409 raise their fixed-message kinds; 429 raises RateLimit when the
Retry-After header parses without error, while an isdigit-true header
containing a non-decimal digit raises an uncaught ValueError; any
status of 500 or above raises the generic error "Server error:
-status-"; and any other status in 400-499 raises the generic error
"HTTP error: -status-".  The extracted api messages are attached to
whichever error is raised.  A response whose body parses to a
non-object JSON value instead raises an uncaught AttributeError,
whatever the status. -/
theorem C1_status_classification (t : Nat) (r : Response) :
    (∀ j, r.body = .parsed j → (∀ fs, j ≠ .obj fs) →
      make_request t (.response r) = .pyError .attributeError) ∧
    (∀ msgs, extract_api_message (parse_body r.body) = Except.ok msgs →
      (200 ≤ r.status → r.status ≤ 399 → make_request t (.response r) = .success r) ∧
      (r.status = 400 → make_request t (.response r) =
        .apiError (.validation (bad_request_message msgs) msgs)) ∧
      (msgs = [] → bad_request_message msgs = "Bad Request") ∧
      (msgs ≠ [] → bad_request_message msgs =
        "Bad Request (" ++ String.intercalate "; " msgs ++ ")") ∧
      (r.status = 401 → make_request t (.response r) =
        .apiError (.authentication "Unauthorized: Check your access token" msgs)) ∧
      (r.status = 403 → make_request t (.response r) =
        .apiError (.forbidden "Forbidden: Insufficient permissions" msgs)) ∧
      (r.status = 404 → make_request t (.response r) =
        .apiError (.resourceNotFound "Not Found" msgs)) ∧
      (r.status = 409 → make_request t (.response r) =
        .apiError (.conflict "Conflict" msgs)) ∧
      (∀ rs, retry_seconds_of r.retryAfter = .ok rs → r.status = 429 →
        make_request t (.response r) =
          .apiError (.rateLimit (rate_limit_message rs) msgs rs)) ∧
      (retry_seconds_of r.retryAfter = .error .valueError → r.status = 429 →
        make_request t (.response r) = .pyError .valueError) ∧
      (500 ≤ r.status → make_request t (.response r) =
        .apiError (.generic ("Server error: " ++ toString r.status) msgs)) ∧
      (400 ≤ r.status → r.status < 500 →
        r.status ≠ 400 → r.status ≠ 401 → r.status ≠ 403 → r.status ≠ 404 →
        r.status ≠ 409 → r.status ≠ 429 →
        make_request t (.response r) =
          .apiError (.generic ("HTTP error: " ++ toString r.status) msgs))) := by
  constructor
  · intro j hj hno
    simp [make_request, hj, parse_body, extract_api_message_non_obj j hno]
  · intro msgs hex
    have hmr := make_request_response_eq t r msgs hex
    refine ⟨?_, ?_, ?_, ?_, ?_, ?_, ?_, ?_, ?_, ?_, ?_, ?_⟩
    · intro h1 h2
      have n1 : r.status ≠ 400 := by omega
      have n2 : r.status ≠ 401 := by omega
      have n3 : r.status ≠ 403 := by omega
      have n4 : r.status ≠ 404 := by omega
      have n5 : r.status ≠ 409 := by omega
      have n6 : r.status ≠ 429 := by omega
      have n7 : ¬ 500 ≤ r.status := by omega
      have n8 : ¬ 400 ≤ r.status := by omega
      rw [hmr]
      unfold classify_status
      rw [if_neg n1, if_neg n2, if_neg n3, if_neg n4, if_neg n5, if_neg n6, if_neg n7,
        if_neg n8]
    · intro h
      rw [hmr]
      unfold classify_status
      rw [if_pos h]
    · intro h
      subst h
      rfl
    · intro h
      unfold bad_request_message
      cases msgs with
      | nil => exact absurd rfl h
      | cons a l => rfl
    · intro h
      have n1 : r.status ≠ 400 := by omega
      rw [hmr]
      unfold classify_status
      rw [if_neg n1, if_pos h]
    · intro h
      have n1 : r.status ≠ 400 := by omega
      have n2 : r.status ≠ 401 := by omega
      rw [hmr]
      unfold classify_status
      rw [if_neg n1, if_neg n2, if_pos h]
    · intro h
      have n1 : r.status ≠ 400 := by omega
      have n2 : r.status ≠ 401 := by omega
      have n3 : r.status ≠ 403 := by omega
      rw [hmr]
      unfold classify_status
      rw [if_neg n1, if_neg n2, if_neg n3, if_pos h]
    · intro h
      have n1 : r.status ≠ 400 := by omega
      have n2 : r.status ≠ 401 := by omega
      have n3 : r.status ≠ 403 := by omega
      have n4 : r.status ≠ 404 := by omega
      rw [hmr]
      unfold classify_status
      rw [if_neg n1, if_neg n2, if_neg n3, if_neg n4, if_pos h]
    · intro rs hrs h
      have n1 : r.status ≠ 400 := by omega
      have n2 : r.status ≠ 401 := by omega
      have n3 : r.status ≠ 403 := by omega
      have n4 : r.status ≠ 404 := by omega
      have n5 : r.status ≠ 409 := by omega
      rw [hmr]
      unfold classify_status
      rw [if_neg n1, if_neg n2, if_neg n3, if_neg n4, if_neg n5, if_pos h, hrs]
    · intro hrs h
      have n1 : r.status ≠ 400 := by omega
      have n2 : r.status ≠ 401 := by omega
      have n3 : r.status ≠ 403 := by omega
      have n4 : r.status ≠ 404 := by omega
      have n5 : r.status ≠ 409 := by omega
      rw [hmr]
      unfold classify_status
      rw [if_neg n1, if_neg n2, if_neg n3, if_neg n4, if_neg n5, if_pos h, hrs]
    · intro h
      have n1 : r.status ≠ 400 := by omega
      have n2 : r.status ≠ 401 := by omega
      have n3 : r.status ≠ 403 := by omega
      have n4 : r.status ≠ 404 := by omega
      have n5 : r.status ≠ 409 := by omega
      have n6 : r.status ≠ 429 := by omega
      rw [hmr]
      unfold classify_status
      rw [if_neg n1, if_neg n2, if_neg n3, if_neg n4, if_neg n5, if_neg n6, if_pos h]
    · intro h1 h2 h3 h4 h5 h6 h7 h8
      have n7 : ¬ 500 ≤ r.status := by omega
      rw [hmr]
      unfold classify_status
      rw [if_neg h3, if_neg h4, if_neg h5, if_neg h6, if_neg h7, if_neg h8, if_neg n7,
        if_pos h1]

/-- C1 witness: concrete classifications at statuses 250, 400 (with one
api message), 429 (header "7"), 503, 418, and a 200 response with a
non-object body. -/
theorem C1_status_classification_witness :
    make_request 3 (.response ⟨250, .parsed (.obj []), none⟩) =
      .success ⟨250, .parsed (.obj []), none⟩ ∧
    make_request 3 (.response ⟨400, .parsed (.obj [("message", .str "field missing")]), none⟩) =
      .apiError (.validation "Bad Request (field missing)" ["field missing"]) ∧
    make_request 3 (.response ⟨429, .parsed (.obj []), some "7"⟩) =
      .apiError (.rateLimit
        "Too Many Requests: Rate limit exceeded - Retry after 7 seconds" [] (some 7)) ∧
    make_request 3 (.response ⟨503, .parsed (.obj []), none⟩) =
      .apiError (.generic "Server error: 503" []) ∧
    make_request 3 (.response ⟨418, .parsed (.obj []), none⟩) =
      .apiError (.generic "HTTP error: 418" []) ∧
    make_request 3 (.response ⟨200, .parsed (.num 5), none⟩) = .pyError .attributeError := by
  refine ⟨?_, ?_, ?_, ?_, ?_, ?_⟩
  · have hlo : (200 : Nat) ≤ 250 := by decide
    have hhi : (250 : Nat) ≤ 399 := by decide
    exact ((C1_status_classification 3 ⟨250, .parsed (.obj []), none⟩).2 [] rfl).1 hlo hhi
  · exact ((C1_status_classification 3
      ⟨400, .parsed (.obj [("message", .str "field missing")]), none⟩).2
      ["field missing"] rfl).2.1 rfl
  · exact ((C1_status_classification 3
      ⟨429, .parsed (.obj []), some "7"⟩).2 [] rfl).2.2.2.2.2.2.2.2.1 (some 7) rfl rfl
  · have hs : (500 : Nat) ≤ 503 := by decide
    exact ((C1_status_classification 3
      ⟨503, .parsed (.obj []), none⟩).2 [] rfl).2.2.2.2.2.2.2.2.2.2.1 hs
  · have hge : (400 : Nat) ≤ 418 := by decide
    have hlt : (418 : Nat) < 500 := by decide
    have d1 : (418 : Nat) ≠ 400 := by decide
    have d2 : (418 : Nat) ≠ 401 := by decide
    have d3 : (418 : Nat) ≠ 403 := by decide
    have d4 : (418 : Nat) ≠ 404 := by decide
    have d5 : (418 : Nat) ≠ 409 := by decide
    have d6 : (418 : Nat) ≠ 429 := by decide
    exact ((C1_status_classification 3
      ⟨418, .parsed (.obj []), none⟩).2 [] rfl).2.2.2.2.2.2.2.2.2.2.2
      hge hlt d1 d2 d3 d4 d5 d6
  · exact (C1_status_classification 3 ⟨200, .parsed (.num 5), none⟩).1 (.num 5) rfl
      (fun fs hcon => Json.noConfusion hcon)

/-- C1 counterexample: at status 600 the code raises the generic error
with message "Server error: 600", not "HTTP error: 600" as the claim
(which reserves the server-error message for 500-599) requires; and a
401 response whose body parses to a JSON string raises an uncaught
AttributeError, not the AuthenticationError the claim asserts. -/
theorem C1_status600_counterexample :
    make_request 10 (.response ⟨600, .parsed (.obj []), none⟩) =
      .apiError (.generic "Server error: 600" []) ∧
    ("Server error: 600" : String) ≠ "HTTP error: 600" ∧
    make_request 10 (.response ⟨401, .parsed (.str "oops"), none⟩) =
      .pyError .attributeError :=
  ⟨rfl, by decide, rfl⟩

/-- C3 (amended): a 429 response whose body fails to parse or parses to
a JSON object raises RateLimit with the retry-after value parsed from
the header; a header that is a decimal digit string with value n yields
retry_after = n, and the message carries the suffix exactly when n is
nonzero: at n = 0 the attribute is set to 0 but the message is the
fixed text with no suffix; an isdigit-true header containing a
non-decimal digit character (e.g. a superscript) makes int() raise an
uncaught ValueError instead; otherwise (header absent or not isdigit)
retry_after is absent and the message has no suffix.  A 429 response
whose body parses to a non-object JSON value raises an uncaught
AttributeError. -/
theorem C3_retry_after_classification (t : Nat) (b : BodyParse) (h : Option String) :
    (∀ j, b = .parsed j → (∀ fs, j ≠ .obj fs) →
      make_request t (.response ⟨429, b, h⟩) = .pyError .attributeError) ∧
    (∀ msgs, extract_api_message (parse_body b) = Except.ok msgs →
      (∀ rs, retry_seconds_of h = .ok rs →
        make_request t (.response ⟨429, b, h⟩) =
          .apiError (.rateLimit (rate_limit_message rs) msgs rs)) ∧
      (retry_seconds_of h = .error .valueError →
        make_request t (.response ⟨429, b, h⟩) = .pyError .valueError)) ∧
    (∀ s, h = some s → pyIsDigit s = true → s.data.all Char.isDigit = true →
      retry_seconds_of h = .ok (some (pyStrToNat s))) ∧
    (∀ s, h = some s → pyIsDigit s = true → s.data.all Char.isDigit = false →
      retry_seconds_of h = .error .valueError) ∧
    (∀ s, h = some s → pyIsDigit s = false → retry_seconds_of h = .ok none) ∧
    (h = none → retry_seconds_of h = .ok none) ∧
    (∀ n, n ≠ 0 → rate_limit_message (some n) =
      "Too Many Requests: Rate limit exceeded - Retry after " ++ toString n ++ " seconds") ∧
    (rate_limit_message (some 0) = "Too Many Requests: Rate limit exceeded") ∧
    (rate_limit_message none = "Too Many Requests: Rate limit exceeded") := by
  refine ⟨?_, ?_, ?_, ?_, ?_, ?_, ?_, rfl, rfl⟩
  · intro j hj hno
    simp [make_request, hj, parse_body, extract_api_message_non_obj j hno]
  · intro msgs hex
    have hmr := make_request_response_eq t ⟨429, b, h⟩ msgs hex
    have hcl : classify_status ⟨429, b, h⟩ msgs =
        match retry_seconds_of h with
        | .error e => .pyError e
        | .ok rs => .apiError (.rateLimit (rate_limit_message rs) msgs rs) := rfl
    constructor
    · intro rs hrs
      rw [hmr, hcl, hrs]
    · intro hrs
      rw [hmr, hcl, hrs]
  · intro s hs hd hall
    subst hs
    have hne : (!s.data.isEmpty) = true := by
      simp only [pyIsDigit, Bool.and_eq_true] at hd
      exact hd.1
    simp [retry_seconds_of, hne, hd, pyIntOfDigitString, hall]
  · intro s hs hd hall
    subst hs
    have hne : (!s.data.isEmpty) = true := by
      simp only [pyIsDigit, Bool.and_eq_true] at hd
      exact hd.1
    simp [retry_seconds_of, hne, hd, pyIntOfDigitString, hall]
  · intro s hs hd
    subst hs
    simp [retry_seconds_of, hd]
  · intro hn
    rw [hn]
    rfl
  · intro n hn
    simp [rate_limit_message, hn]

/-- C3 witness: header value "60" on an object body yields retry_after
60 and the suffixed message. -/
theorem C3_retry_after_classification_witness :
    make_request 2 (.response ⟨429, .parsed (.obj []), some "60"⟩) =
      .apiError (.rateLimit
        "Too Many Requests: Rate limit exceeded - Retry after 60 seconds" [] (some 60)) ∧
    retry_seconds_of (some "60") = .ok (some 60) := by
  have h := C3_retry_after_classification 2 (.parsed (.obj [])) (some "60")
  exact ⟨(h.2.1 [] rfl).1 (some 60) rfl, h.2.2.1 "60" rfl rfl rfl⟩

/-- C3 counterexample: header "Retry-After: 0" sets retry_after = 0 but,
because of the falsy test on the parsed value, the message has no
suffix, while the claim requires "Retry after 0 seconds"; a superscript
header passes isdigit but makes int() raise an uncaught ValueError; and
a 429 response with a non-object body raises an uncaught
AttributeError, so no RateLimitError at all. -/
theorem C3_retry_after_zero_counterexample :
    make_request 10 (.response ⟨429, .parsed (.obj []), some "0"⟩) =
      .apiError (.rateLimit "Too Many Requests: Rate limit exceeded" [] (some 0)) ∧
    ("Too Many Requests: Rate limit exceeded" : String) ≠
      "Too Many Requests: Rate limit exceeded - Retry after 0 seconds" ∧
    make_request 10 (.response ⟨429, .parsed (.obj []), some "\u00B2"⟩) =
      .pyError .valueError ∧
    make_request 10 (.response ⟨429, .parsed (.num 3), none⟩) = .pyError .attributeError :=
  ⟨rfl, by decide, rfl, rfl⟩

/-- C5: a transport failure with no response maps to Network for an
aiohttp ClientError and to Timeout for an asyncio timeout; both raised
errors carry an empty api_message list, and the two kinds are distinct. -/
theorem C5_transport_failures (t : Nat) (m : String) :
    make_request t (.clientError m) =
      .apiError (.network ("Request failed: " ++ m) []) ∧
    make_request t .timeoutError =
      .apiError (.timeout ("Request timeout after " ++ toString t ++ " seconds") []) ∧
    (ApiError.network ("Request failed: " ++ m) []).apiMessageOf = [] ∧
    (ApiError.timeout ("Request timeout after " ++ toString t ++ " seconds")
      []).apiMessageOf = [] ∧
    (∀ m1 a1 m2 a2, ApiError.timeout m1 a1 ≠ ApiError.network m2 a2) :=
  ⟨rfl, rfl, rfl, rfl, fun _ _ _ _ h => ApiError.noConfusion h⟩

/-- C2: evaluation of the code at a failing input.  On a successful
response `_make_request` returns the response object itself, not the
decoded body; `_request_model_list` then fails its list check with
"Expected list response, got ClientResponse".  With a JSON-array body
(the shape a real list endpoint returns) the call dies even earlier:
api-message extraction raises an uncaught AttributeError. -/
theorem C2_success_returns_response_object :
    make_request 10 (.response ⟨200, .parsed (.obj []), none⟩) =
      .success ⟨200, .parsed (.obj []), none⟩ ∧
    request_model_list_flow 10 (.response ⟨200, .parsed (.obj []), none⟩) =
      .raised (.generic "Expected list response, got ClientResponse" []) ∧
    request_model_list_flow 10 (.response ⟨200, .parsed (.arr [.obj []]), none⟩) =
      .pythonError .attributeError :=
  ⟨rfl, rfl, rfl⟩

/-- Unfolding equation for extraction on a dict body. -/
theorem extract_api_message_obj (fields : List (String × Json)) :
    extract_api_message (.obj fields) =
      match fields.lookup "message" with
      | some (.arr ms) => Except.ok (ms.map pyStr)
      | some (.str s) => Except.ok [s]
      | _ => Except.ok [] := rfl

/-- C4 (amended): extraction is total on every body that parses to a
JSON object, and on parse failure (which substitutes an empty object):
a string message yields a one-element list, a list message yields its
elements stringified, anything else yields the empty list.  A body
parsing to a non-object JSON value is outside this guarantee (see the
counterexample: it raises AttributeError). -/
theorem C4_extraction_on_objects (fields : List (String × Json)) :
    (extract_api_message (parse_body .unparsable) = .ok []) ∧
    (fields.lookup "message" = none → extract_api_message (.obj fields) = .ok []) ∧
    (∀ s, fields.lookup "message" = some (.str s) →
      extract_api_message (.obj fields) = .ok [s]) ∧
    (∀ ms, fields.lookup "message" = some (.arr ms) →
      extract_api_message (.obj fields) = .ok (ms.map pyStr)) ∧
    (∀ o, fields.lookup "message" = some (.obj o) →
      extract_api_message (.obj fields) = .ok []) ∧
    (∀ n, fields.lookup "message" = some (.num n) →
      extract_api_message (.obj fields) = .ok []) ∧
    (fields.lookup "message" = some .null → extract_api_message (.obj fields) = .ok []) ∧
    (∀ b, fields.lookup "message" = some (.bool b) →
      extract_api_message (.obj fields) = .ok []) := by
  refine ⟨rfl, ?_, ?_, ?_, ?_, ?_, ?_, ?_⟩
  · intro h
    rw [extract_api_message_obj, h]
  · intro s h
    rw [extract_api_message_obj, h]
  · intro ms h
    rw [extract_api_message_obj, h]
  · intro o h
    rw [extract_api_message_obj, h]
  · intro n h
    rw [extract_api_message_obj, h]
  · intro h
    rw [extract_api_message_obj, h]
  · intro b h
    rw [extract_api_message_obj, h]

/-- C4 witness: the message list [123, 456] stringifies to
["123", "456"]; an absent message field yields []. -/
theorem C4_extraction_on_objects_witness :
    extract_api_message (.obj [("message", .arr [.num 123, .num 456])]) =
      .ok ["123", "456"] ∧
    extract_api_message (.obj [("other", .str "x")]) = .ok [] := by
  refine ⟨?_, ?_⟩
  · exact (C4_extraction_on_objects [("message", .arr [.num 123, .num 456])]).2.2.2.1
      [.num 123, .num 456] rfl
  · exact (C4_extraction_on_objects [("other", .str "x")]).2.1 rfl

/-- C4 counterexample: a body parsing to a top-level JSON array makes
`data.get("message")` raise AttributeError, which no except-clause
catches, so extraction is not total over received bodies. -/
theorem C4_array_body_counterexample :
    extract_api_message (Json.arr []) = .error .attributeError ∧
    make_request 10 (.response ⟨400, .parsed (.arr []), none⟩) =
      .pyError .attributeError :=
  ⟨rfl, rfl⟩

/-- C6: CreateMeterReadingDto encodes `value` as its decimal string
under key "value", includes "timestamp" and "note" only when present
(never an explicit null), and emits no other keys; decimal 123.45 with
no optionals yields exactly the one-key dict, and decimal 0 encodes as
"0". -/
theorem C6_create_meter_reading_to_dict (v : PyDecimal) (ts : Option PyDatetime)
    (note : Option String) :
    ((CreateMeterReadingDto.mk v ts note).to_dict).lookup "value" =
      some (.str (pyDecimalStr v)) ∧
    ((CreateMeterReadingDto.mk v ts note).to_dict).map Prod.fst =
      "value" :: ((match ts with
        | some _ => ["timestamp"]
        | none => []) ++
       (match note with
        | some _ => ["note"]
        | none => [])) ∧
    (∀ kv, kv ∈ (CreateMeterReadingDto.mk v ts note).to_dict → kv.2 ≠ Json.null) ∧
    (CreateMeterReadingDto.mk ⟨false, [1, 2, 3, 4, 5], -2⟩ none none).to_dict =
      [("value", .str "123.45")] ∧
    (CreateMeterReadingDto.mk ⟨false, [0], 0⟩ none none).to_dict =
      [("value", .str "0")] := by
  refine ⟨rfl, ?_, ?_, rfl, rfl⟩
  · cases ts <;> cases note <;> rfl
  · intro kv hkv
    cases ts <;> cases note <;>
      simp only [CreateMeterReadingDto.to_dict, List.cons_append, List.nil_append,
        List.mem_cons, List.not_mem_nil, or_false, List.mem_singleton] at hkv <;>
      rcases hkv with h | h | h <;> (try subst h) <;> simp

/-- C6 witness: the membership hypothesis discharged at the single entry
of the minimal encoding. -/
theorem C6_create_meter_reading_to_dict_witness :
    (("value", Json.str "123.45") : String × Json).2 ≠ Json.null := by
  have h := C6_create_meter_reading_to_dict ⟨false, [1, 2, 3, 4, 5], -2⟩ none none
  exact h.2.2.1 ("value", Json.str "123.45") (by rw [h.2.2.2.1]; exact List.mem_singleton.mpr rfl)

/-- C7: ExportMeterReadingsDto encodes exactly the four keys columns,
includeHeader, delimiter, dateFormat, with the columns sequence
preserved in order and mapped to the fixed wire tokens; the default
configuration over all five columns yields the expected wire object. -/
theorem C7_export_to_dict (d : ExportMeterReadingsDto) :
    (d.to_dict).map Prod.fst = ["columns", "includeHeader", "delimiter", "dateFormat"] ∧
    (d.to_dict).lookup "columns" = some (.arr (d.columns.map fun c => .str c.val)) ∧
    (d.to_dict).lookup "includeHeader" = some (.bool d.include_header) ∧
    (d.to_dict).lookup "delimiter" = some (.str d.delimiter.val) ∧
    (d.to_dict).lookup "dateFormat" = some (.str d.date_format.val) ∧
    ExportColumn.val .date = "date" ∧
    ExportColumn.val .value = "value" ∧
    ExportColumn.val .note = "note" ∧
    ExportColumn.val .meter_id = "meter_id" ∧
    ExportColumn.val .meter_number = "meter_number" ∧
    ({ columns := [.date, .value, .note, .meter_id, .meter_number] } :
        ExportMeterReadingsDto).to_dict =
      [("columns", .arr [.str "date", .str "value", .str "note", .str "meter_id",
          .str "meter_number"]),
       ("includeHeader", .bool true), ("delimiter", .str "comma"),
       ("dateFormat", .str "iso")] :=
  ⟨rfl, rfl, rfl, rfl, rfl, rfl, rfl, rfl, rfl, rfl, rfl⟩

/-- C8 (amended): every wire encode path for a datetime produces the
Python isoformat with millisecond timespec: the seconds part, exactly
three fractional millisecond digits (microseconds truncated), and the
zone designator of the datetime itself — empty for a naive datetime,
its own offset otherwise.  No conversion to UTC is performed. -/
theorem C8_isoformat_encoding (dt : PyDatetime) :
    (∀ v note, ((CreateMeterReadingDto.mk v (some dt) note).to_dict).lookup "timestamp" =
      some (.str (pyIsoformatMs dt))) ∧
    (TimestampDto.mk dt).to_dict = [("timestamp", .str (pyIsoformatMs dt))] ∧
    (∀ x, ((CreateEnvironmentEntryDto.mk x (some dt)).to_dict).lookup "timestamp" =
      some (.str (pyIsoformatMs dt))) ∧
    (∀ mi tt s, (meter_reading_list_params mi (some dt) tt s).lookup "from" =
      some (pyIsoformatMs dt)) ∧
    (∀ mi ft s, (meter_reading_list_params mi ft (some dt) s).lookup "to" =
      some (pyIsoformatMs dt)) ∧
    (∀ nm fp ub, (device_list_params nm fp (some dt) ub).lookup "updatedAfter" =
      some (pyIsoformatMs dt)) ∧
    (∀ nm fp ua, (device_list_params nm fp ua (some dt)).lookup "updatedBefore" =
      some (pyIsoformatMs dt)) ∧
    pyIsoformatMs dt = isoSecondsPart dt ++ "." ++ pad3 (dt.microsecond / 1000) ++
      offsetDesignator dt.tzOffsetMinutes ∧
    (pad3 (dt.microsecond / 1000)).length = 3 ∧
    (dt.tzOffsetMinutes = none → offsetDesignator dt.tzOffsetMinutes = "") ∧
    (∀ o, dt.tzOffsetMinutes = some o → offsetDesignator dt.tzOffsetMinutes =
      (if 0 ≤ o then "+" else "-") ++ pad2 (o.natAbs / 60) ++ ":" ++ pad2 (o.natAbs % 60)) := by
  refine ⟨fun v note => rfl, rfl, fun x => rfl, ?_, ?_, ?_, ?_, rfl, rfl, ?_, ?_⟩
  · intro mi tt s
    cases mi <;> rfl
  · intro mi ft s
    cases mi <;> cases ft <;> rfl
  · intro nm fp ub
    cases nm <;> cases fp <;> rfl
  · intro nm fp ua
    cases nm <;> cases fp <;> cases ua <;> rfl
  · intro h
    rw [h]
    rfl
  · intro o h
    rw [h]
    rfl

/-- C8 witness: a naive datetime encodes with three millisecond digits
and no zone designator. -/
theorem C8_isoformat_encoding_witness :
    (TimestampDto.mk ⟨2024, 1, 15, 10, 30, 45, 123000, none⟩).to_dict =
      [("timestamp", .str "2024-01-15T10:30:45.123")] ∧
    offsetDesignator (none : Option Int) = "" := by
  have h := C8_isoformat_encoding ⟨2024, 1, 15, 10, 30, 45, 123000, none⟩
  exact ⟨h.2.1, h.2.2.2.2.2.2.2.2.2.1 rfl⟩

/-- C8 counterexample: a datetime carrying a +02:00 offset encodes with
that offset preserved; the result is not expressed in UTC (no +00:00 or
Z designator, and it differs from the UTC rendering of the instant). -/
theorem C8_non_utc_counterexample :
    (TimestampDto.mk ⟨2024, 1, 15, 10, 30, 45, 123000, some 120⟩).to_dict =
      [("timestamp", .str "2024-01-15T10:30:45.123+02:00")] ∧
    endsWithStr "2024-01-15T10:30:45.123+02:00" "+00:00" = false ∧
    endsWithStr "2024-01-15T10:30:45.123+02:00" "Z" = false ∧
    ("2024-01-15T10:30:45.123+02:00" : String) ≠ "2024-01-15T08:30:45.123+00:00" :=
  ⟨rfl, rfl, rfl, by decide⟩

/-- C9: each query parameter is included only when the corresponding
optional argument is supplied; a supplied boolean encodes as the literal
string "true" or "false"; the sort parameter is included only when sort
differs from the descending default. -/
theorem C9_query_parameter_rules (mi : Option String) (ft tt : Option PyDatetime)
    (s : SortDirection) (ar : Option Bool) :
    (meter_reading_list_params mi ft tt s).lookup "meterId" = mi ∧
    (meter_reading_list_params mi ft tt s).lookup "from" = ft.map pyIsoformatMs ∧
    (meter_reading_list_params mi ft tt s).lookup "to" = tt.map pyIsoformatMs ∧
    (meter_reading_list_params mi ft tt s).lookup "sort" =
      (if s ≠ .desc then some s.val else none) ∧
    (meter_reading_list_params mi ft tt .desc).lookup "sort" = none ∧
    (meter_reading_create_params ar).lookup "allowRounding" = ar.map pyBoolLower ∧
    meter_reading_create_params (some true) = [("allowRounding", "true")] ∧
    meter_reading_create_params (some false) = [("allowRounding", "false")] ∧
    meter_reading_create_params none = [] := by
  refine ⟨?_, ?_, ?_, ?_, ?_, ?_, rfl, rfl, rfl⟩
  · cases mi <;> cases ft <;> cases tt <;> cases s <;> rfl
  · cases mi <;> cases ft <;> cases tt <;> cases s <;> rfl
  · cases mi <;> cases ft <;> cases tt <;> cases s <;> rfl
  · cases mi <;> cases ft <;> cases tt <;> cases s <;> rfl
  · cases mi <;> cases ft <;> cases tt <;> rfl
  · cases ar <;> rfl

/-- C10 (amended): close() is idempotent, but a call after close() does
not fail fast: `_get_session` lazily creates a fresh session (flag true)
and the operation proceeds with a network exchange. -/
theorem C10_close_then_lazy_recreate (s : SessionState) :
    close_client (close_client s) = close_client s ∧
    (get_session s).1 = .openSession ∧
    get_session (close_client .openSession) = (.openSession, true) ∧
    close_client .closedSession = .closedSession := by
  cases s <;> exact ⟨rfl, rfl, rfl, rfl⟩

/-- C10 counterexample: immediately after closing an open session, the
next operation creates a new transport session (the creation flag is
true) and yields an open session, rather than failing fast. -/
theorem C10_reconnect_counterexample :
    get_session (close_client .openSession) = (.openSession, true) ∧
    (get_session (close_client .openSession)).2 = true :=
  ⟨rfl, rfl⟩

end EnergyTracker
